import Mathlib

/-!
Shallow embedding of the YACHAQ Python SDK (yachaq/client.py, yachaq/errors.py,
yachaq/models.py): the response-classification layer, the authenticate operation
and its client-state side effect, and the alias (de)serialization of domain
input models. Definitions follow the Python source; theorems settle the spec's
claims about it.
-/

set_option autoImplicit false

namespace Yachaq

/-- JSON values as produced by `response.json()` (Python `json.loads`):
null, booleans, numbers, strings, arrays, objects. Numbers are modelled as
integers; no claim touches fractional response numbers. Objects are ordered
key-value lists; Python dict semantics (last duplicate key wins) are applied
at lookup. -/
inductive JValue where
  | null
  | bool (b : Bool)
  | int (n : Int)
  | str (s : String)
  | arr (xs : List JValue)
  | obj (kvs : List (String × JValue))
deriving Repr

/-- Python dict lookup `d[k]` / membership: the value of the LAST occurrence of
the key (later duplicate keys overwrite earlier ones when `json.loads` builds
the dict). -/
def dictGet (kvs : List (String × JValue)) (k : String) : Option JValue :=
  ((kvs.filter (fun p => p.1 = k)).getLast?).map (·.2)

/-- Python `d.get(k, default)`: the stored value when the key is present (even
when that value is `None`), the default otherwise. -/
def dictGetD (kvs : List (String × JValue)) (k : String) (d : JValue) : JValue :=
  (dictGet kvs k).getD d

/-- Python truthiness of a JSON-decoded value: `None`, `False`, `0`, `""`,
`[]`, `{}` are falsy; everything else is truthy. For a dict built by
`json.loads`, `len(d) > 0` iff the key-value list is non-empty up to duplicate
keys; duplicates only arise from duplicate JSON keys, and a dict with at least
one entry is truthy either way. -/
def jTruthy : JValue → Bool
  | .null => false
  | .bool b => b
  | .int n => n != 0
  | .str s => !s.isEmpty
  | .arr xs => !xs.isEmpty
  | .obj kvs => !kvs.isEmpty

/-- Is this JSON value `null` (Python `None`)? -/
def jIsNull : JValue → Bool
  | .null => true
  | _ => false

/-- One character is an ASCII decimal digit. -/
def isDigitChar (c : Char) : Bool := c.isDigit

/-- Digits-with-underscores body of a Python integer literal string: one or
more digit groups separated by single underscores (`int("1_000") = 1000`), no
leading, trailing or doubled underscore. Returns the digit string with
underscores removed when well formed. -/
def stripUnderscores : List Char → Option (List Char)
  | [] => some []
  | ['_'] => none
  | '_' :: '_' :: _ => none
  | '_' :: c :: rest =>
      if isDigitChar c then (stripUnderscores (c :: rest)).map (fun ds => ds) else none
  | c :: rest =>
      if isDigitChar c then (stripUnderscores rest).map (fun ds => c :: ds) else none

/-- Value of a list of decimal digit characters. -/
def digitsVal : List Char → Nat
  | [] => 0
  | c :: rest => digitsVal rest + c.toNat.sub 48 * 10 ^ rest.length

/-- Strip leading and trailing whitespace from a character list (the
whitespace stripping `int(s)` performs on its string argument). -/
def pyStrip (cs : List Char) : List Char :=
  ((cs.dropWhile Char.isWhitespace).reverse.dropWhile Char.isWhitespace).reverse

/-- Python `int(s)` on a string: strips surrounding whitespace, accepts an
optional sign followed by decimal digits (with optional single underscores
between digits); any other shape raises `ValueError`, modelled as `none`.
(Non-ASCII digit forms are out of scope.) -/
def pyInt (s : String) : Option Int :=
  match pyStrip s.toList with
  | [] => none
  | '+' :: rest =>
      match rest with
      | [] => none
      | c :: _ => if isDigitChar c then (stripUnderscores rest).map (fun ds => (digitsVal ds : Int)) else none
  | '-' :: rest =>
      match rest with
      | [] => none
      | c :: _ => if isDigitChar c then (stripUnderscores rest).map (fun ds => -(digitsVal ds : Int)) else none
  | c :: rest =>
      if isDigitChar c then (stripUnderscores (c :: rest)).map (fun ds => (digitsVal ds : Int)) else none

/-- ASCII-lowercased characters of a string (header names are ASCII). -/
def lowerChars (s : String) : List Char :=
  s.toList.map Char.toLower

/-- Case-insensitive header lookup, as `httpx.Headers.get` performs: the first
header whose name matches `Retry-After` up to ASCII case. -/
def headerGet (headers : List (String × String)) (k : String) : Option String :=
  (headers.find? (fun p => lowerChars p.1 = lowerChars k)).map (·.2)

/-- An HTTP response as the classification layer sees it: status code, headers,
and the body's JSON parse. `body = none` models a body that is not valid JSON,
so that `response.json()` raises `JSONDecodeError`. -/
structure HttpResponse where
  status : Nat
  headers : List (String × String)
  body : Option JValue

/-- The exceptions the handling layer can raise (errors.py), plus the built-in
Python exceptions its code can let escape. Payloads are the constructor
arguments from the source: `ValidationError(message, validation_errors)`,
`RateLimitError(message, retry_after)`, `YachaqError(message, code)`.
Messages taken from an envelope field keep their JSON value (a present-but-null
`errorMessage` is carried as null, since `dict.get` only defaults on an absent
key). -/
inductive SDKError where
  | authError (message : JValue)
  | validationError (message : JValue) (validationErrors : JValue)
  | rateLimitError (message : String) (retryAfter : Int)
  | networkError (message : String)
  | yachaqError (message : JValue) (code : JValue)
  | pyValueError
  | pyJSONDecodeError
  | pyAttributeError
  | pydanticError
deriving Repr

/-- `YachaqClient._check_status`: `401` raises `AuthenticationError`; `429`
raises `RateLimitError("Rate limit exceeded", int(headers.get("Retry-After", "60")))`
where an unparseable header makes `int` raise `ValueError`; status `>= 500`
raises `NetworkError(f"Server error: {status}")`; otherwise no error. -/
def check_status (r : HttpResponse) : Option SDKError :=
  if r.status = 401 then
    some (.authError (.str "Authentication required or token expired"))
  else if r.status = 429 then
    match pyInt ((headerGet r.headers "Retry-After").getD "60") with
    | some n => some (.rateLimitError "Rate limit exceeded" n)
    | none => some .pyValueError
  else if 500 ≤ r.status then
    some (.networkError ("Server error: " ++ toString r.status))
  else
    none

/-- Result of a handler: the returned value or the raised error. -/
inductive HandleResult (α : Type) where
  | ok (v : α)
  | err (e : SDKError)
deriving Repr

/-- The handler raised (did not return). -/
def HandleResult.isErr {α : Type} : HandleResult α → Bool
  | .ok _ => false
  | .err _ => true

/-- `YachaqClient._handle_response`: `_check_status` first; then
`response.json()`; then on `data.get("success") and data.get("data")` (Python
truthiness of both) deserialize `data["data"]` with the endpoint's model class
(modelled by the `parse` argument; a pydantic validation failure raises);
else on a truthy `data.get("validationErrors")` raise
`ValidationError(data.get("errorMessage", "Validation failed"), data["validationErrors"])`;
else raise
`YachaqError(data.get("errorMessage", "Request failed"), data.get("errorCode", "UNKNOWN_ERROR"))`.
A non-object JSON body makes `data.get` raise `AttributeError`. -/
def handle_response {α : Type} (parse : JValue → Option α) (r : HttpResponse) :
    HandleResult α :=
  match check_status r with
  | some e => .err e
  | none =>
    match r.body with
    | none => .err .pyJSONDecodeError
    | some (.obj kvs) =>
      if jTruthy (dictGetD kvs "success" .null) && jTruthy (dictGetD kvs "data" .null) then
        match parse (dictGetD kvs "data" .null) with
        | some v => .ok v
        | none => .err .pydanticError
      else if jTruthy (dictGetD kvs "validationErrors" .null) then
        .err (.validationError (dictGetD kvs "errorMessage" (.str "Validation failed"))
          (dictGetD kvs "validationErrors" .null))
      else
        .err (.yachaqError (dictGetD kvs "errorMessage" (.str "Request failed"))
          (dictGetD kvs "errorCode" (.str "UNKNOWN_ERROR")))
    | some _ => .err .pyAttributeError

/-- `YachaqClient._handle_response_raw`: `_check_status` first; then
`response.json()`; then on `data.get("success") and data.get("data") is not None`
return `data["data"]` unchanged; else raise
`YachaqError(data.get("errorMessage", "Request failed"), data.get("errorCode", "UNKNOWN_ERROR"))`.
There is no validation-errors branch on this path. -/
def handle_response_raw (r : HttpResponse) : HandleResult JValue :=
  match check_status r with
  | some e => .err e
  | none =>
    match r.body with
    | none => .err .pyJSONDecodeError
    | some (.obj kvs) =>
      if jTruthy (dictGetD kvs "success" .null) && !(jIsNull (dictGetD kvs "data" .null)) then
        .ok (dictGetD kvs "data" .null)
      else
        .err (.yachaqError (dictGetD kvs "errorMessage" (.str "Request failed"))
          (dictGetD kvs "errorCode" (.str "UNKNOWN_ERROR")))
    | some _ => .err .pyAttributeError

/-! ## Wire values for request payloads (pydantic `model_dump(by_alias=True,
exclude_none=True)` output) -/

/-- A Python `decimal.Decimal`, opaque to the claims (carried through
serialization unchanged in python-mode dumps). -/
structure PyDecimal where
  val : String
deriving Repr, DecidableEq

/-- A Python `datetime.datetime`, opaque to the claims (carried through
serialization unchanged in python-mode dumps). -/
structure PyDatetime where
  iso : String
deriving Repr, DecidableEq

/-- Values appearing in a `model_dump(by_alias=True, exclude_none=True)`
payload: JSON-ish data plus `Decimal` and `datetime` leaves, which python-mode
dumps keep as objects. A `str`-based enum member dumps as itself and equals its
string value, so enum leaves are plain strings here. -/
inductive WireVal where
  | null
  | bool (b : Bool)
  | int (n : Int)
  | str (s : String)
  | dec (d : PyDecimal)
  | dt (t : PyDatetime)
  | arr (xs : List WireVal)
  | obj (kvs : List (String × WireVal))
deriving Repr

/-- Dict lookup on a dumped payload (last duplicate key wins, as for `dictGet`). -/
def wDictGet (kvs : List (String × WireVal)) (k : String) : Option WireVal :=
  ((kvs.filter (fun p => p.1 = k)).getLast?).map (·.2)

/-- Pydantic field lookup with `populate_by_name = True`: the alias key when
present, else the canonical field name. -/
def fieldGet (kvs : List (String × WireVal)) (al nm : String) : Option WireVal :=
  match wDictGet kvs al with
  | some v => some v
  | none => wDictGet kvs nm

/-! ## Client state, headers and authenticate (client.py lines 80–143) -/

/-- The mutable client fields the claims touch: the configured `api_key` and
the held `_access_token` (both `Optional[str]`, default `None`). -/
structure ClientState where
  api_key : Option String
  access_token : Option String
deriving Repr, DecidableEq

/-- Python truthiness of an `Optional[str]`: `None` and `""` are falsy. -/
def strTruthy : Option String → Bool
  | none => false
  | some s => !s.isEmpty

/-- Python `a or b` on two `Optional[str]` values: `a` when truthy, else `b`. -/
def pyOr (a b : Option String) : Option String :=
  if strTruthy a then a else b

/-- `YachaqClient._get_headers`: an `Authorization: Bearer <token>` header when
`self._access_token` is truthy (present and non-empty), nothing otherwise. -/
def get_headers (st : ClientState) : List (String × String) :=
  match st.access_token with
  | some t => if t.isEmpty then [] else [("Authorization", "Bearer " ++ t)]
  | none => []

/-- The `AuthResponse` pydantic model: four required fields. -/
structure AuthResponse where
  access_token : String
  refresh_token : String
  expires_in : Int
  token_type : String
deriving Repr, DecidableEq

/-- `AuthResponse(**data["data"])`: requires a JSON object carrying the four
snake_case fields with their declared types (extra keys are ignored, pydantic's
default); anything else raises, modelled as `none`. (Pydantic's lax
string-to-number coercion is immaterial to the claims, which only distinguish
the success path from a raised error.) -/
def parseAuthResponse (v : JValue) : Option AuthResponse :=
  match v with
  | .obj kvs =>
    match dictGet kvs "access_token", dictGet kvs "refresh_token",
        dictGet kvs "expires_in", dictGet kvs "token_type" with
    | some (.str a), some (.str r), some (.int e), some (.str t) =>
      some { access_token := a, refresh_token := r, expires_in := e, token_type := t }
    | _, _, _, _ => none
  | _ => none

/-- An HTTP request as the transport receives it: method, path, extra headers
and the JSON-serializable body. -/
structure HttpRequest where
  method : String
  path : String
  headers : List (String × String)
  body : Option WireVal

/-- The request `authenticate` sends: `POST /v1/auth/token` with body
`{"apiKey": key}` and no extra headers (`_get_headers` is not used there). -/
def authTokenRequest (key : String) : HttpRequest :=
  { method := "POST", path := "/v1/auth/token", headers := [],
    body := some (.obj [("apiKey", .str key)]) }

/-- `YachaqClient.authenticate`, as a transition on client state: `key = api_key
or self.api_key`; when falsy raise `AuthenticationError("API key is required")`;
otherwise POST `/v1/auth/token` with `{"apiKey": key}` (no `_check_status` on
the result) and parse `response.json()`; on truthy `success` and truthy `data`
build `AuthResponse(**data["data"])`, assign `self._access_token = auth.access_token`
and return it; otherwise raise
`AuthenticationError(data.get("errorMessage", "Authentication failed"))`. The
state component of the result is the client state after the call. -/
def authenticate (st : ClientState) (transport : HttpRequest → HttpResponse)
    (api_key : Option String) : ClientState × HandleResult AuthResponse :=
  let key := pyOr api_key st.api_key
  if strTruthy key then
    let resp := transport (authTokenRequest (key.getD ""))
    match resp.body with
    | none => (st, .err .pyJSONDecodeError)
    | some (.obj kvs) =>
      if jTruthy (dictGetD kvs "success" .null) && jTruthy (dictGetD kvs "data" .null) then
        match parseAuthResponse (dictGetD kvs "data" .null) with
        | some auth => ({ st with access_token := some auth.access_token }, .ok auth)
        | none => (st, .err .pydanticError)
      else
        (st, .err (.authError (dictGetD kvs "errorMessage" (.str "Authentication failed"))))
    | some _ => (st, .err .pyAttributeError)
  else
    (st, .err (.authError (.str "API key is required")))

/-! ## Domain models (models.py) and their alias (de)serialization -/

/-- The `OutputMode` str-enum. -/
inductive OutputMode where
  | RAW
  | AGGREGATE_ONLY
  | VIEW_ONLY
  | CLEAN_ROOM
deriving Repr, DecidableEq

/-- The string value of an `OutputMode` member (a str-enum member equals its
value). -/
def OutputMode.toStr : OutputMode → String
  | .RAW => "RAW"
  | .AGGREGATE_ONLY => "AGGREGATE_ONLY"
  | .VIEW_ONLY => "VIEW_ONLY"
  | .CLEAN_ROOM => "CLEAN_ROOM"

/-- Pydantic validation of a string into `OutputMode`. -/
def OutputMode.ofStr : String → Option OutputMode
  | "RAW" => some .RAW
  | "AGGREGATE_ONLY" => some .AGGREGATE_ONLY
  | "VIEW_ONLY" => some .VIEW_ONLY
  | "CLEAN_ROOM" => some .CLEAN_ROOM
  | _ => none

/-- `TimeWindow`: two required datetimes, no aliases. -/
structure TimeWindow where
  start : PyDatetime
  «end» : PyDatetime
deriving Repr, DecidableEq

/-- `GeoCriteria`: a required `precision` string constrained by the pattern
`^(CITY|REGION|COUNTRY)$`, and an optional list of regions. -/
structure GeoCriteria where
  precision : String
  regions : Option (List String)
deriving Repr, DecidableEq

/-- The `GeoCriteria.precision` pattern check. (Python's `$` would also accept
a single trailing newline; such strings never round-trip differently, so the
exact-match form is used.) -/
def precisionOk (s : String) : Bool :=
  s = "CITY" || s = "REGION" || s = "COUNTRY"

/-- `RequestConfig` (models.py lines 81–92): canonical snake_case fields with
camelCase wire aliases, `populate_by_name = True`. -/
structure RequestConfig where
  template_id : Option String
  required_labels : List String
  optional_labels : Option (List String)
  time_window : Option TimeWindow
  geo_criteria : Option GeoCriteria
  compensation : PyDecimal
  output_mode : OutputMode
  ttl_hours : Option Int
deriving Repr, DecidableEq

/-- Serialize a list of strings. -/
def strsToWire (ls : List String) : WireVal :=
  .arr (ls.map .str)

/-- Parse a list of strings. -/
def strListOf : List WireVal → Option (List String)
  | [] => some []
  | .str s :: rest => (strListOf rest).map (fun ls => s :: ls)
  | _ :: _ => none

/-- A dumped optional field: omitted when `None` (`exclude_none=True`). -/
def optField (k : String) (v : Option WireVal) : List (String × WireVal) :=
  match v with
  | some w => [(k, w)]
  | none => []

/-- Parse an optional string field value. -/
def optStrOf : Option WireVal → Option (Option String)
  | none => some none
  | some .null => some none
  | some (.str s) => some (some s)
  | some _ => none

/-- Parse an optional string-list field value. -/
def optStrsOf : Option WireVal → Option (Option (List String))
  | none => some none
  | some .null => some none
  | some (.arr xs) => (strListOf xs).map some
  | some _ => none

/-- Parse an optional int field value. -/
def optIntOf : Option WireVal → Option (Option Int)
  | none => some none
  | some .null => some none
  | some (.int n) => some (some n)
  | some _ => none

/-- Parse an optional nested-model field value. -/
def optModelOf {α : Type} (p : WireVal → Option α) : Option WireVal → Option (Option α)
  | none => some none
  | some .null => some none
  | some v => (p v).map some

/-- `TimeWindow.model_dump` (no aliases). -/
def TimeWindow.toWire (w : TimeWindow) : WireVal :=
  .obj [("start", .dt w.start), ("end", .dt w.«end»)]

/-- Validate a dumped `TimeWindow`. -/
def TimeWindow.fromWire (v : WireVal) : Option TimeWindow :=
  match v with
  | .obj kvs =>
    match fieldGet kvs "start" "start", fieldGet kvs "end" "end" with
    | some (.dt s), some (.dt e) => some { start := s, «end» := e }
    | _, _ => none
  | _ => none

/-- `GeoCriteria.model_dump(exclude_none=True)` (no aliases). -/
def GeoCriteria.toWire (g : GeoCriteria) : WireVal :=
  .obj ([("precision", .str g.precision)] ++ optField "regions" (g.regions.map strsToWire))

/-- Validate a dumped `GeoCriteria`, re-checking the precision pattern. -/
def GeoCriteria.fromWire (v : WireVal) : Option GeoCriteria :=
  match v with
  | .obj kvs =>
    match fieldGet kvs "precision" "precision" with
    | some (.str p) =>
      if precisionOk p then
        (optStrsOf (fieldGet kvs "regions" "regions")).map
          (fun rs => { precision := p, regions := rs })
      else none
    | _ => none
  | _ => none

/-- `RequestConfig.model_dump(by_alias=True, exclude_none=True)`: camelCase
keys, `None` optionals omitted, nested models dumped recursively, the
compensation `Decimal` and the enum member carried as-is. -/
def RequestConfig.toWire (c : RequestConfig) : WireVal :=
  .obj (optField "templateId" (c.template_id.map .str)
    ++ [("requiredLabels", strsToWire c.required_labels)]
    ++ optField "optionalLabels" (c.optional_labels.map strsToWire)
    ++ optField "timeWindow" (c.time_window.map TimeWindow.toWire)
    ++ optField "geoCriteria" (c.geo_criteria.map GeoCriteria.toWire)
    ++ [("compensation", .dec c.compensation)]
    ++ [("outputMode", .str c.output_mode.toStr)]
    ++ optField "ttlHours" (c.ttl_hours.map .int))

/-- `RequestConfig(**payload)` with `populate_by_name = True`: each field read
by alias or canonical name, required fields mandatory, optionals defaulting to
`None`; any type mismatch or failed constraint raises, modelled as `none`. -/
def RequestConfig.fromWire (v : WireVal) : Option RequestConfig :=
  match v with
  | .obj kvs => do
    let tid ← optStrOf (fieldGet kvs "templateId" "template_id")
    let req ← match fieldGet kvs "requiredLabels" "required_labels" with
      | some (.arr xs) => strListOf xs
      | _ => none
    let opt ← optStrsOf (fieldGet kvs "optionalLabels" "optional_labels")
    let tw ← optModelOf TimeWindow.fromWire (fieldGet kvs "timeWindow" "time_window")
    let gc ← optModelOf GeoCriteria.fromWire (fieldGet kvs "geoCriteria" "geo_criteria")
    let comp ← match fieldGet kvs "compensation" "compensation" with
      | some (.dec d) => some d
      | _ => none
    let om ← match fieldGet kvs "outputMode" "output_mode" with
      | some (.str s) => OutputMode.ofStr s
      | _ => none
    let ttl ← optIntOf (fieldGet kvs "ttlHours" "ttl_hours")
    pure { template_id := tid, required_labels := req, optional_labels := opt,
           time_window := tw, geo_criteria := gc, compensation := comp,
           output_mode := om, ttl_hours := ttl }
  | _ => none

/-- A `RequestConfig` whose `geo_criteria`, when present, passed the pattern
validation pydantic performs at construction — every config a caller can
actually build satisfies this. -/
def RequestConfig.geoOk (c : RequestConfig) : Bool :=
  match c.geo_criteria with
  | some g => precisionOk g.precision
  | none => true

/-! ## Typed response models and two representative operations -/

/-- Pydantic field lookup on a response JSON object (`populate_by_name`). -/
def jFieldGet (kvs : List (String × JValue)) (al nm : String) : Option JValue :=
  match dictGet kvs al with
  | some v => some v
  | none => dictGet kvs nm

/-- Parse a JSON array of strings. -/
def jStrListOf : List JValue → Option (List String)
  | [] => some []
  | .str s :: rest => (jStrListOf rest).map (fun ls => s :: ls)
  | _ :: _ => none

/-- Parse an optional string field of a response object. -/
def jOptStrOf : Option JValue → Option (Option String)
  | none => some none
  | some .null => some none
  | some (.str s) => some (some s)
  | some _ => none

/-- Parse an optional string-list field of a response object. -/
def jOptStrsOf : Option JValue → Option (Option (List String))
  | none => some none
  | some .null => some none
  | some (.arr xs) => (jStrListOf xs).map some
  | some _ => none

/-- The `RemediationAction` str-enum. -/
inductive RemediationAction where
  | MODIFY_CRITERIA
  | CHANGE_OUTPUT_MODE
  | REDUCE_SCOPE
  | ADD_JUSTIFICATION
  | UPGRADE_TIER
deriving Repr, DecidableEq

/-- Pydantic validation of a string into `RemediationAction`. -/
def RemediationAction.ofStr : String → Option RemediationAction
  | "MODIFY_CRITERIA" => some .MODIFY_CRITERIA
  | "CHANGE_OUTPUT_MODE" => some .CHANGE_OUTPUT_MODE
  | "REDUCE_SCOPE" => some .REDUCE_SCOPE
  | "ADD_JUSTIFICATION" => some .ADD_JUSTIFICATION
  | "UPGRADE_TIER" => some .UPGRADE_TIER
  | _ => none

/-- `RemediationSuggestion`: four required fields, no aliases. -/
structure RemediationSuggestion where
  id : String
  title : String
  description : String
  action : RemediationAction
deriving Repr, DecidableEq

/-- `RemediationSuggestion(**obj)`. -/
def parseRemediationSuggestion (v : JValue) : Option RemediationSuggestion :=
  match v with
  | .obj kvs =>
    match jFieldGet kvs "id" "id", jFieldGet kvs "title" "title",
        jFieldGet kvs "description" "description", jFieldGet kvs "action" "action" with
    | some (.str i), some (.str t), some (.str d), some (.str a) =>
      (RemediationAction.ofStr a).map
        (fun act => { id := i, title := t, description := d, action := act })
    | _, _, _, _ => none
  | _ => none

/-- Parse a JSON array with an element parser. -/
def jListOf {α : Type} (p : JValue → Option α) : List JValue → Option (List α)
  | [] => some []
  | v :: rest => (p v).bind (fun a => (jListOf p rest).map (fun as => a :: as))

/-- `RequestCreationResult` (models.py lines 112–120). -/
structure RequestCreationResult where
  success : Bool
  request_id : Option String
  status : Option String
  errors : Option (List String)
  suggestions : Option (List RemediationSuggestion)
deriving Repr, DecidableEq

/-- `RequestCreationResult(**data["data"])` with `populate_by_name = True`. -/
def parseRequestCreationResult (v : JValue) : Option RequestCreationResult :=
  match v with
  | .obj kvs => do
    let sc ← match jFieldGet kvs "success" "success" with
      | some (.bool b) => some b
      | _ => none
    let rid ← jOptStrOf (jFieldGet kvs "requestId" "request_id")
    let stt ← jOptStrOf (jFieldGet kvs "status" "status")
    let errs ← jOptStrsOf (jFieldGet kvs "errors" "errors")
    let sugg ← match jFieldGet kvs "suggestions" "suggestions" with
      | none => some none
      | some .null => some none
      | some (.arr xs) => (jListOf parseRemediationSuggestion xs).map some
      | some _ => none
    pure { success := sc, request_id := rid, status := stt, errors := errs,
           suggestions := sugg }
  | _ => none

/-- The `DisputeReason` str-enum. -/
inductive DisputeReason where
  | DATA_QUALITY
  | SCHEMA_MISMATCH
  | INCOMPLETE_DATA
  | CONSENT_VIOLATION
  | OTHER
deriving Repr, DecidableEq

/-- The string value of a `DisputeReason` member. -/
def DisputeReason.toStr : DisputeReason → String
  | .DATA_QUALITY => "DATA_QUALITY"
  | .SCHEMA_MISMATCH => "SCHEMA_MISMATCH"
  | .INCOMPLETE_DATA => "INCOMPLETE_DATA"
  | .CONSENT_VIOLATION => "CONSENT_VIOLATION"
  | .OTHER => "OTHER"

/-- `DisputeRequest` (models.py lines 272–280). -/
structure DisputeRequest where
  request_id : String
  capsule_id : String
  reason : DisputeReason
  description : String
  evidence_ids : Option (List String)
deriving Repr, DecidableEq

/-- `DisputeRequest.model_dump(by_alias=True, exclude_none=True)`. -/
def DisputeRequest.toWire (d : DisputeRequest) : WireVal :=
  .obj ([("requestId", .str d.request_id), ("capsuleId", .str d.capsule_id),
    ("reason", .str d.reason.toStr), ("description", .str d.description)]
    ++ optField "evidenceIds" (d.evidence_ids.map strsToWire))

/-- The request `create_request` sends: `POST /v1/requests` with the dumped
config as body and `_get_headers()` as extra headers. -/
def createRequestRequest (st : ClientState) (config : RequestConfig) : HttpRequest :=
  { method := "POST", path := "/v1/requests", headers := get_headers st,
    body := some config.toWire }

/-- `YachaqClient.create_request`: build the request from the typed input,
invoke the transport, hand the response to `_handle_response` with
`RequestCreationResult`. -/
def create_request (st : ClientState) (transport : HttpRequest → HttpResponse)
    (config : RequestConfig) : HandleResult RequestCreationResult :=
  handle_response parseRequestCreationResult (transport (createRequestRequest st config))

/-- The request `file_dispute` sends: `POST /v1/disputes` with the dumped
dispute as body and `_get_headers()` as extra headers. -/
def fileDisputeRequest (st : ClientState) (request : DisputeRequest) : HttpRequest :=
  { method := "POST", path := "/v1/disputes", headers := get_headers st,
    body := some request.toWire }

/-- `YachaqClient.file_dispute`: build the request from the typed input, invoke
the transport, hand the response to `_handle_response_raw`. -/
def file_dispute (st : ClientState) (transport : HttpRequest → HttpResponse)
    (request : DisputeRequest) : HandleResult JValue :=
  handle_response_raw (transport (fileDisputeRequest st request))

/-! ## Concrete fixtures used by witnesses and counterexamples -/

/-- A 401 response whose body is shaped like a validation failure. -/
def resp401Validation : HttpResponse :=
  { status := 401, headers := [],
    body := some (.obj [("success", .bool false),
      ("validationErrors", .arr [.str "bad field"])]) }

/-- A 500 response whose body is not valid JSON. -/
def resp500Malformed : HttpResponse :=
  { status := 500, headers := [], body := none }

/-- A 429 response with no `Retry-After` header. -/
def resp429NoHeader : HttpResponse :=
  { status := 429, headers := [], body := none }

/-- A 429 response with `Retry-After: 12`. -/
def resp429Twelve : HttpResponse :=
  { status := 429, headers := [("Retry-After", "12")], body := none }

/-- A 429 response whose `Retry-After` header is not an integer string. -/
def resp429Unparseable : HttpResponse :=
  { status := 429, headers := [("Retry-After", "tomorrow")],
    body := some (.obj [("success", .bool false), ("errorMessage", .str "slow down")]) }

/-- A 200 response whose envelope has `success: true` but `data: null`, and
also a non-empty `validationErrors` list. -/
def respSuccessNullData : HttpResponse :=
  { status := 200, headers := [],
    body := some (.obj [("success", .bool true), ("data", .null),
      ("validationErrors", .arr [.str "field required"])]) }

/-- A 200 response with `success: true` and no `data` key at all. -/
def respSuccessNoData : HttpResponse :=
  { status := 200, headers := [], body := some (.obj [("success", .bool true)]) }

/-- A 200 response whose envelope is a validation failure. -/
def respValidationFailure : HttpResponse :=
  { status := 200, headers := [],
    body := some (.obj [("success", .bool false), ("errorMessage", .str "bad"),
      ("validationErrors", .arr [.str "x"])]) }

/-- A 200 response with a validation-failure envelope and an `errorMessage`. -/
def respValidationTwo : HttpResponse :=
  { status := 200, headers := [],
    body := some (.obj [("success", .bool false), ("errorMessage", .str "invalid request"),
      ("validationErrors", .arr [.str "first", .str "second"])]) }

/-- A 200 response whose `data` is a non-empty array. -/
def respRawArray : HttpResponse :=
  { status := 200, headers := [],
    body := some (.obj [("success", .bool true), ("data", .arr [.int 1, .int 2])]) }

/-- A 200 response with `success: true` and `data: {}` (present but falsy). -/
def respEmptyObjData : HttpResponse :=
  { status := 200, headers := [],
    body := some (.obj [("success", .bool true), ("data", .obj [])]) }

/-- A client holding a previously obtained token and no configured API key. -/
def stOld : ClientState := { api_key := none, access_token := some "old-token" }

/-- A client with a configured API key and no token yet. -/
def stKeyed : ClientState := { api_key := some "k", access_token := none }

/-- A transport whose reply is a successful authentication envelope carrying
the token `"tok"`. -/
def tAuthOk : HttpRequest → HttpResponse := fun _ =>
  { status := 200, headers := [],
    body := some (.obj [("success", .bool true),
      ("data", .obj [("access_token", .str "tok"), ("refresh_token", .str "ref"),
        ("expires_in", .int 3600), ("token_type", .str "bearer")])]) }

/-- A transport whose reply is a successful authentication envelope carrying
an empty access token. -/
def tAuthEmptyTok : HttpRequest → HttpResponse := fun _ =>
  { status := 200, headers := [],
    body := some (.obj [("success", .bool true),
      ("data", .obj [("access_token", .str ""), ("refresh_token", .str "ref"),
        ("expires_in", .int 3600), ("token_type", .str "bearer")])]) }

/-- The `AuthResponse` value `tAuthOk`'s envelope deserializes to. -/
def authTok : AuthResponse :=
  { access_token := "tok", refresh_token := "ref", expires_in := 3600,
    token_type := "bearer" }

/-- The `AuthResponse` value `tAuthEmptyTok`'s envelope deserializes to. -/
def authTokEmpty : AuthResponse :=
  { access_token := "", refresh_token := "ref", expires_in := 3600,
    token_type := "bearer" }

/-- A transport whose reply has status 429 and a failure envelope. -/
def tRateLimited : HttpRequest → HttpResponse := fun _ =>
  { status := 429, headers := [("Retry-After", "30")],
    body := some (.obj [("success", .bool false), ("errorMessage", .str "slow down")]) }

/-- A concrete request configuration. -/
def cfg0 : RequestConfig :=
  { template_id := none, required_labels := ["health:steps"], optional_labels := none,
    time_window := none, geo_criteria := none, compensation := { val := "5.00" },
    output_mode := .AGGREGATE_ONLY, ttl_hours := none }

/-- A concrete dispute request. -/
def dispute0 : DisputeRequest :=
  { request_id := "r1", capsule_id := "c1", reason := .DATA_QUALITY,
    description := "bad data", evidence_ids := none }

/-- A request configuration exercising every field, including the nested
optional models. -/
def cfgFull : RequestConfig :=
  { template_id := some "tmpl-1",
    required_labels := ["health:steps", "health:sleep"],
    optional_labels := some ["health:hr"],
    time_window := some { start := { iso := "2024-01-01T00:00:00Z" },
                          «end» := { iso := "2024-02-01T00:00:00Z" } },
    geo_criteria := some { precision := "CITY", regions := some ["lima"] },
    compensation := { val := "5.00" },
    output_mode := .AGGREGATE_ONLY,
    ttl_hours := some 24 }

/-! ## Helper lemmas -/

/-- A value other than JSON null is not `jIsNull`. -/
theorem jIsNull_eq_false {v : JValue} (h : v ≠ .null) : jIsNull v = false := by
  cases v <;> simp_all [jIsNull]

/-- `pyInt` accepts the default header string `"60"`. -/
theorem pyInt_default : pyInt "60" = some 60 := rfl

/-! ## C1 -/

/-- C1: for every response with status 401, both classification paths raise the
authentication error, whatever the body holds (including a non-JSON body or a
validation-shaped envelope); and for every response with status ≥ 500 they
raise the network error carrying the status code, again without the body ever
being consulted, so a malformed body cannot cause a parse error on these
paths. -/
theorem status_short_circuit_classification {α : Type} (parse : JValue → Option α)
    (r : HttpResponse) :
    (r.status = 401 →
      handle_response parse r =
        .err (.authError (.str "Authentication required or token expired")) ∧
      handle_response_raw r =
        .err (.authError (.str "Authentication required or token expired"))) ∧
    (500 ≤ r.status →
      handle_response parse r =
        .err (.networkError ("Server error: " ++ toString r.status)) ∧
      handle_response_raw r =
        .err (.networkError ("Server error: " ++ toString r.status))) := by
  constructor
  · intro h
    simp [handle_response, handle_response_raw, check_status, h]
  · intro h
    have h1 : r.status ≠ 401 := by omega
    have h2 : r.status ≠ 429 := by omega
    simp [handle_response, handle_response_raw, check_status, h1, h2, h]

/-- C1 witness: a 401 response whose body is a validation-shaped envelope is
classified as an authentication error, and a 500 response with a non-JSON body
is classified as a network error. -/
theorem status_short_circuit_classification_witness :
    handle_response (fun v => some v) resp401Validation =
      .err (.authError (.str "Authentication required or token expired")) ∧
    handle_response_raw resp500Malformed =
      .err (.networkError ("Server error: " ++ toString 500)) :=
  ⟨((status_short_circuit_classification (fun v => some v) resp401Validation).1 rfl).1,
   ((status_short_circuit_classification (fun v => some v) resp500Malformed).2
      (Nat.le_refl 500)).2⟩

/-! ## C2 -/

/-- C2 counterexample: on a 429 response whose `Retry-After` header is
`"tomorrow"`, classification does not raise a rate-limit error with
retry-after 60 — `int("tomorrow")` raises `ValueError`, which escapes
`_check_status` unhandled. -/
theorem retry_after_unparseable_cex :
    handle_response (fun v => some v) resp429Unparseable = .err .pyValueError ∧
    handle_response (fun v => some v) resp429Unparseable ≠
      .err (.rateLimitError "Rate limit exceeded" 60) := by
  have e : handle_response (fun v => some v) resp429Unparseable = .err .pyValueError := rfl
  refine ⟨e, ?_⟩
  rw [e]
  intro h
  simp at h

/-- C2 amended: for every response with status 429, classification raises a
rate-limit error whose retry-after equals the `Retry-After` header parsed as a
(possibly signed) integer when the header is present and parseable, and equals
60 when the header is absent; when the header is present but not parseable as
an integer, classification fails with an unhandled `ValueError` instead of
raising a rate-limit error. -/
theorem rate_limit_retry_after {α : Type} (parse : JValue → Option α)
    (r : HttpResponse) (h : r.status = 429) :
    (headerGet r.headers "Retry-After" = none →
      handle_response parse r = .err (.rateLimitError "Rate limit exceeded" 60) ∧
      handle_response_raw r = .err (.rateLimitError "Rate limit exceeded" 60)) ∧
    (∀ s n, headerGet r.headers "Retry-After" = some s → pyInt s = some n →
      handle_response parse r = .err (.rateLimitError "Rate limit exceeded" n) ∧
      handle_response_raw r = .err (.rateLimitError "Rate limit exceeded" n)) ∧
    (∀ s, headerGet r.headers "Retry-After" = some s → pyInt s = none →
      handle_response parse r = .err .pyValueError ∧
      handle_response_raw r = .err .pyValueError) := by
  refine ⟨?_, ?_, ?_⟩
  · intro hh
    simp [handle_response, handle_response_raw, check_status, h, hh, pyInt_default]
  · intro s n hh hp
    simp [handle_response, handle_response_raw, check_status, h, hh, hp]
  · intro s hh hp
    simp [handle_response, handle_response_raw, check_status, h, hh, hp]

/-- C2 witness: the three header cases at concrete responses — header absent
gives retry-after 60, header `"12"` gives retry-after 12, header `"tomorrow"`
gives the unhandled `ValueError`. -/
theorem rate_limit_retry_after_witness :
    handle_response_raw resp429NoHeader = .err (.rateLimitError "Rate limit exceeded" 60) ∧
    handle_response_raw resp429Twelve = .err (.rateLimitError "Rate limit exceeded" 12) ∧
    handle_response_raw resp429Unparseable = .err .pyValueError :=
  ⟨((rate_limit_retry_after (fun v => some v) resp429NoHeader rfl).1 rfl).2,
   ((rate_limit_retry_after (fun v => some v) resp429Twelve rfl).2.1 "12" 12 rfl rfl).2,
   ((rate_limit_retry_after (fun v => some v) resp429Unparseable rfl).2.2 "tomorrow" rfl rfl).2⟩

/-! ## C3 -/

/-- C3 counterexample: on a 200 response with `success: true`, `data: null`
and a non-empty `validationErrors` list, `_handle_response` raises a
validation error, not the generic application error the claim predicts — the
validation-errors check runs before the generic fallback even when `success`
was true. -/
theorem success_null_data_cex :
    handle_response (fun v => some v) respSuccessNullData =
      .err (.validationError (.str "Validation failed") (.arr [.str "field required"])) ∧
    handle_response (fun v => some v) respSuccessNullData ≠
      .err (.yachaqError (.str "Request failed") (.str "UNKNOWN_ERROR")) := by
  have e : handle_response (fun v => some v) respSuccessNullData =
      .err (.validationError (.str "Validation failed") (.arr [.str "field required"])) := rfl
  refine ⟨e, ?_⟩
  rw [e]
  intro h
  simp at h

/-- C3 amended: for every response with a non-error status whose envelope has
truthy `success` but `data` absent or null, `_handle_response` raises (never
returns a success value); the raised error is the generic application error,
with code falling back to `UNKNOWN_ERROR` and message falling back to
`Request failed`, provided the envelope carries no truthy `validationErrors`
field — with one it raises a validation error instead. -/
theorem success_without_data_is_error {α : Type} (parse : JValue → Option α)
    (r : HttpResponse) (kvs : List (String × JValue))
    (hs : check_status r = none)
    (hb : r.body = some (.obj kvs))
    (hsucc : jTruthy (dictGetD kvs "success" .null) = true)
    (hdata : dictGet kvs "data" = none ∨ dictGet kvs "data" = some .null) :
    (handle_response parse r).isErr = true ∧
    (jTruthy (dictGetD kvs "validationErrors" .null) = false →
      handle_response parse r =
        .err (.yachaqError (dictGetD kvs "errorMessage" (.str "Request failed"))
          (dictGetD kvs "errorCode" (.str "UNKNOWN_ERROR")))) := by
  have hd : dictGetD kvs "data" .null = .null := by
    rcases hdata with h | h <;> simp [dictGetD, h]
  constructor
  · simp only [handle_response, hs, hb, hd, hsucc]
    simp [jTruthy]
    split <;> simp [HandleResult.isErr]
  · intro hv
    simp only [handle_response, hs, hb, hd, hsucc, hv]
    simp [jTruthy]

/-- C3 witness: a 200 response with `success: true` and the `data` key absent
is classified as the generic application error with both fallbacks. -/
theorem success_without_data_is_error_witness :
    (handle_response (fun v => some v) respSuccessNoData).isErr = true ∧
    handle_response (fun v => some v) respSuccessNoData =
      .err (.yachaqError (.str "Request failed") (.str "UNKNOWN_ERROR")) := by
  have h := success_without_data_is_error (fun v => some v) respSuccessNoData
    [("success", .bool true)] rfl rfl rfl (Or.inl rfl)
  exact ⟨h.1, h.2 rfl⟩

/-! ## C4 -/

/-- C4: for every response with a non-error status whose envelope has
`success: false` and a non-empty `validationErrors` list, `_handle_response`
raises a validation error carrying the envelope's `errorMessage` (the fallback
`"Validation failed"` when the key is absent) and exactly the envelope's
`validationErrors` list, order preserved. -/
theorem validation_errors_exact_list {α : Type} (parse : JValue → Option α)
    (r : HttpResponse) (kvs : List (String × JValue)) (vs : List JValue)
    (hs : check_status r = none)
    (hb : r.body = some (.obj kvs))
    (hsucc : dictGet kvs "success" = some (.bool false))
    (hv : dictGet kvs "validationErrors" = some (.arr vs))
    (hne : vs ≠ []) :
    handle_response parse r =
      .err (.validationError (dictGetD kvs "errorMessage" (.str "Validation failed"))
        (.arr vs)) := by
  have h1 : dictGetD kvs "success" .null = .bool false := by simp [dictGetD, hsucc]
  have h2 : dictGetD kvs "validationErrors" .null = .arr vs := by simp [dictGetD, hv]
  simp only [handle_response, hs, hb, h1, h2]
  simp [jTruthy, hne]

/-- C4 witness: a 200 response with `success: false`, an `errorMessage` and a
two-element `validationErrors` list raises a validation error carrying that
message and that list in order. -/
theorem validation_errors_exact_list_witness :
    handle_response (fun v => some v) respValidationTwo =
      .err (.validationError (.str "invalid request") (.arr [.str "first", .str "second"])) := by
  have h := validation_errors_exact_list (fun v => some v) respValidationTwo
    [("success", .bool false), ("errorMessage", .str "invalid request"),
      ("validationErrors", .arr [.str "first", .str "second"])]
    [.str "first", .str "second"] rfl rfl rfl rfl (by simp)
  exact h

/-! ## C5 -/

/-- C5 counterexample: on a validation-failure envelope, the typed path raises
a validation error but `_handle_response_raw` raises the generic application
error — the raw path has no validation-errors branch, so it does not fail in
the same way as the typed path. -/
theorem raw_path_cex :
    handle_response (fun v => some v) respValidationFailure =
      .err (.validationError (.str "bad") (.arr [.str "x"])) ∧
    handle_response_raw respValidationFailure =
      .err (.yachaqError (.str "bad") (.str "UNKNOWN_ERROR")) ∧
    handle_response_raw respValidationFailure ≠
      .err (.validationError (.str "bad") (.arr [.str "x"])) := by
  have e : handle_response_raw respValidationFailure =
      .err (.yachaqError (.str "bad") (.str "UNKNOWN_ERROR")) := rfl
  refine ⟨rfl, e, ?_⟩
  rw [e]
  intro h
  simp at h

/-- C5 amended: `_handle_response_raw` returns the envelope's `data` value
unchanged when `success` is truthy and `data` is present and non-null; in
every other envelope case it raises the generic application error (message and
code from the envelope, with the `Request failed` / `UNKNOWN_ERROR` fallbacks)
— unlike the typed path, it never raises a validation error, even when a
non-empty `validationErrors` list is present. -/
theorem raw_success_and_generic_failure (r : HttpResponse)
    (kvs : List (String × JValue))
    (hs : check_status r = none)
    (hb : r.body = some (.obj kvs)) :
    (∀ v, jTruthy (dictGetD kvs "success" .null) = true →
      dictGet kvs "data" = some v → v ≠ .null →
      handle_response_raw r = .ok v) ∧
    ((jTruthy (dictGetD kvs "success" .null) = false ∨
        dictGetD kvs "data" .null = .null) →
      handle_response_raw r =
        .err (.yachaqError (dictGetD kvs "errorMessage" (.str "Request failed"))
          (dictGetD kvs "errorCode" (.str "UNKNOWN_ERROR")))) := by
  constructor
  · intro v hsucc hd hnn
    have hdd : dictGetD kvs "data" .null = v := by simp [dictGetD, hd]
    simp [handle_response_raw, hs, hb, hdd, hsucc, jIsNull_eq_false hnn]
  · intro hfail
    rcases hfail with h | h
    · simp [handle_response_raw, hs, hb, h]
    · simp [handle_response_raw, hs, hb, h, jIsNull]

/-- C5 witness: the raw path returns a present non-null `data` value
unchanged, and on the validation-failure envelope raises the generic
application error. -/
theorem raw_success_and_generic_failure_witness :
    handle_response_raw respRawArray = .ok (.arr [.int 1, .int 2]) ∧
    handle_response_raw respValidationFailure =
      .err (.yachaqError (.str "bad") (.str "UNKNOWN_ERROR")) := by
  constructor
  · exact (raw_success_and_generic_failure respRawArray
      [("success", .bool true), ("data", .arr [.int 1, .int 2])] rfl rfl).1
      (.arr [.int 1, .int 2]) rfl rfl (by simp)
  · exact (raw_success_and_generic_failure respValidationFailure
      [("success", .bool false), ("errorMessage", .str "bad"),
        ("validationErrors", .arr [.str "x"])] rfl rfl).2 (Or.inl rfl)

/-! ## C9 -/

/-- C9: the typed and raw paths use different presence tests for `data`. For
every envelope with truthy `success` and `data` present but falsy and non-null
(empty object, empty array, 0, empty string, or false), `_handle_response`
raises (its condition is the truthiness of `data`) while
`_handle_response_raw` returns the falsy value unchanged (its condition is
only `is not None`). -/
theorem falsy_data_typed_raw_divergence {α : Type} (parse : JValue → Option α)
    (r : HttpResponse) (kvs : List (String × JValue)) (v : JValue)
    (hs : check_status r = none)
    (hb : r.body = some (.obj kvs))
    (hsucc : jTruthy (dictGetD kvs "success" .null) = true)
    (hd : dictGet kvs "data" = some v)
    (hfalsy : jTruthy v = false)
    (hnn : v ≠ .null) :
    (handle_response parse r).isErr = true ∧
    handle_response_raw r = .ok v := by
  have hdd : dictGetD kvs "data" .null = v := by simp [dictGetD, hd]
  constructor
  · simp only [handle_response, hs, hb, hdd, hsucc, hfalsy]
    simp
    split <;> simp [HandleResult.isErr]
  · simp [handle_response_raw, hs, hb, hdd, hsucc, jIsNull_eq_false hnn]

/-- C9 witness: with `success: true` and `data: {}` the typed path raises
while the raw path returns the empty object. -/
theorem falsy_data_typed_raw_divergence_witness :
    (handle_response (fun v => some v) respEmptyObjData).isErr = true ∧
    handle_response_raw respEmptyObjData = .ok (.obj []) :=
  falsy_data_typed_raw_divergence (fun v => some v) respEmptyObjData
    [("success", .bool true), ("data", .obj [])] (.obj []) rfl rfl rfl rfl rfl
    (fun h => JValue.noConfusion h)

/-! ## Shared facts about the branches of `authenticate` -/

/-- On every raising path, `authenticate` returns the client state unchanged. -/
theorem authenticate_err_state (st : ClientState) (t : HttpRequest → HttpResponse)
    (key : Option String) (e : SDKError) (st' : ClientState)
    (h : authenticate st t key = (st', .err e)) : st' = st := by
  simp only [authenticate] at h
  split at h
  · split at h
    · exact ((Prod.mk.injEq .. ▸ h).1).symm
    · split at h
      · split at h
        · exact absurd (Prod.mk.injEq .. ▸ h).2 (by simp)
        · exact ((Prod.mk.injEq .. ▸ h).1).symm
      · exact ((Prod.mk.injEq .. ▸ h).1).symm
    · exact ((Prod.mk.injEq .. ▸ h).1).symm
  · exact ((Prod.mk.injEq .. ▸ h).1).symm

/-- On the success path, the new state is the old one with the access token
replaced by the returned one. -/
theorem authenticate_ok_state (st : ClientState) (t : HttpRequest → HttpResponse)
    (key : Option String) (a : AuthResponse) (st' : ClientState)
    (h : authenticate st t key = (st', .ok a)) :
    st' = { st with access_token := some a.access_token } := by
  simp only [authenticate] at h
  split at h
  · split at h
    · exact absurd (Prod.mk.injEq .. ▸ h).2 (by simp)
    · split at h
      · split at h
        · have h1 := (Prod.mk.injEq .. ▸ h).1
          have h2 := (Prod.mk.injEq .. ▸ h).2
          have ha : _ = a := (HandleResult.ok.injEq .. ▸ h2)
          subst ha
          exact h1.symm
        · exact absurd (Prod.mk.injEq .. ▸ h).2 (by simp)
      · exact absurd (Prod.mk.injEq .. ▸ h).2 (by simp)
    · exact absurd (Prod.mk.injEq .. ▸ h).2 (by simp)
  · exact absurd (Prod.mk.injEq .. ▸ h).2 (by simp)

/-! ## C10 -/

/-- C10: `authenticate` is atomic with respect to client state — every raising
path (missing API key, bad envelope, failed `AuthResponse` validation) leaves
the held access token and the whole client state unchanged, and the token is
written exactly on the success path, to the returned access token. -/
theorem authenticate_state_atomic (st : ClientState)
    (t : HttpRequest → HttpResponse) (key : Option String) :
    (∀ e st', authenticate st t key = (st', .err e) → st' = st) ∧
    (∀ a st', authenticate st t key = (st', .ok a) →
      st' = { st with access_token := some a.access_token }) :=
  ⟨fun e st' h => authenticate_err_state st t key e st' h,
   fun a st' h => authenticate_ok_state st t key a st' h⟩

/-- C10 witness: with no API key anywhere, `authenticate` raises and the
previously held token survives; with a key and a successful response the token
is replaced by the returned one. -/
theorem authenticate_state_atomic_witness :
    (authenticate stOld tAuthOk none).1 = stOld ∧
    (authenticate stKeyed tAuthOk none).1 =
      { stKeyed with access_token := some "tok" } :=
  ⟨(authenticate_state_atomic stOld tAuthOk none).1
      (.authError (.str "API key is required")) (authenticate stOld tAuthOk none).1 rfl,
   (authenticate_state_atomic stKeyed tAuthOk none).2 authTok
      (authenticate stKeyed tAuthOk none).1 rfl⟩

/-! ## C7 -/

/-- C7 counterexample: a successful `authenticate` whose returned access token
is the empty string sets the client's held token to `""`, yet `_get_headers`
(Python truthiness) then attaches no `Authorization` header at all — so a
subsequent operation does not send a bearer header with the returned token. -/
theorem empty_token_no_auth_header_cex :
    (authenticate stKeyed tAuthEmptyTok none).2 = .ok authTokEmpty ∧
    (authenticate stKeyed tAuthEmptyTok none).1.access_token = some "" ∧
    get_headers (authenticate stKeyed tAuthEmptyTok none).1 = [] :=
  ⟨rfl, rfl, rfl⟩

/-- C7 amended: when `authenticate` succeeds, the client's held token is set to
the returned access token, and every subsequent operation sends an
`Authorization: Bearer` header with that token provided the token is non-empty
(with an empty returned token the state is still set, but truthiness suppresses
the header). -/
theorem authenticate_sets_bearer_token (st : ClientState)
    (t : HttpRequest → HttpResponse) (key : Option String) (a : AuthResponse)
    (st' : ClientState) (h : authenticate st t key = (st', .ok a)) :
    st'.access_token = some a.access_token ∧
    (a.access_token ≠ "" →
      get_headers st' = [("Authorization", "Bearer " ++ a.access_token)]) := by
  have he := authenticate_ok_state st t key a st' h
  subst he
  refine ⟨rfl, ?_⟩
  intro hne
  have hf : a.access_token.isEmpty = false := by
    cases ht : a.access_token.isEmpty
    · rfl
    · exact absurd ((String.isEmpty_iff _).mp ht) hne
  simp [get_headers, hf]

/-- C7 witness: a successful `authenticate` returning token `"tok"` leaves the
client holding `some "tok"`, and `_get_headers` then produces the bearer
header. -/
theorem authenticate_sets_bearer_token_witness :
    (authenticate stKeyed tAuthOk none).1.access_token = some "tok" ∧
    get_headers (authenticate stKeyed tAuthOk none).1 =
      [("Authorization", "Bearer " ++ "tok")] := by
  have h := authenticate_sets_bearer_token stKeyed tAuthOk none authTok
    (authenticate stKeyed tAuthOk none).1 rfl
  exact ⟨h.1, h.2 (by simp [authTok])⟩

/-! ## C6 -/

/-- C6 counterexample: `authenticate` does not route its response through the
status-code short-circuit. On a 429 response with `Retry-After: 30` and a
failure envelope, it raises an authentication error carrying the envelope's
`errorMessage` — not the rate-limit error every other operation would raise. -/
theorem authenticate_bypasses_short_circuit_cex :
    (authenticate stKeyed tRateLimited none).2 = .err (.authError (.str "slow down")) ∧
    (authenticate stKeyed tRateLimited none).2 ≠
      .err (.rateLimitError "Rate limit exceeded" 30) := by
  have e : (authenticate stKeyed tRateLimited none).2 =
      .err (.authError (.str "slow down")) := rfl
  refine ⟨e, ?_⟩
  rw [e]
  intro h
  simp at h

/-- C6 amended: every domain operation other than `authenticate` is the pure
composition of request building, transport, and response classification
(witnessed here for `create_request` and `file_dispute`), so 401, 429 (with
`Retry-After` absent or parseable) and ≥ 500 statuses yield the authentication,
rate-limit and network errors on both classification paths. `authenticate`
instead parses the envelope directly, without the status short-circuit: for a
non-success envelope it raises an authentication error whatever the status
code. -/
theorem operations_compose_classification :
    (∀ st t cfg, create_request st t cfg =
      handle_response parseRequestCreationResult (t (createRequestRequest st cfg))) ∧
    (∀ st t d, file_dispute st t d =
      handle_response_raw (t (fileDisputeRequest st d))) ∧
    (∀ (α : Type) (parse : JValue → Option α) (r : HttpResponse),
      (r.status = 401 →
        handle_response parse r =
          .err (.authError (.str "Authentication required or token expired")) ∧
        handle_response_raw r =
          .err (.authError (.str "Authentication required or token expired"))) ∧
      (r.status = 429 → headerGet r.headers "Retry-After" = none →
        handle_response parse r = .err (.rateLimitError "Rate limit exceeded" 60) ∧
        handle_response_raw r = .err (.rateLimitError "Rate limit exceeded" 60)) ∧
      (∀ s n, r.status = 429 → headerGet r.headers "Retry-After" = some s →
        pyInt s = some n →
        handle_response parse r = .err (.rateLimitError "Rate limit exceeded" n) ∧
        handle_response_raw r = .err (.rateLimitError "Rate limit exceeded" n)) ∧
      (500 ≤ r.status →
        handle_response parse r =
          .err (.networkError ("Server error: " ++ toString r.status)) ∧
        handle_response_raw r =
          .err (.networkError ("Server error: " ++ toString r.status)))) ∧
    (∀ st t key kvs, strTruthy (pyOr key st.api_key) = true →
      (t (authTokenRequest ((pyOr key st.api_key).getD ""))).body = some (.obj kvs) →
      (jTruthy (dictGetD kvs "success" .null) &&
        jTruthy (dictGetD kvs "data" .null)) = false →
      (authenticate st t key).2 =
        .err (.authError (dictGetD kvs "errorMessage" (.str "Authentication failed")))) := by
  refine ⟨fun st t cfg => rfl, fun st t d => rfl, ?_, ?_⟩
  · intro α parse r
    refine ⟨?_, ?_, ?_, ?_⟩
    · intro h
      simp [handle_response, handle_response_raw, check_status, h]
    · intro h hh
      simp [handle_response, handle_response_raw, check_status, h, hh, pyInt_default]
    · intro s n h hh hp
      simp [handle_response, handle_response_raw, check_status, h, hh, hp]
    · intro h
      have h1 : r.status ≠ 401 := by omega
      have h2 : r.status ≠ 429 := by omega
      simp [handle_response, handle_response_raw, check_status, h1, h2, h]
  · intro st t key kvs hkey hbody hcond
    simp [authenticate, hkey, hbody, hcond]

/-- C6 witness: the composition equalities at concrete inputs, the rate-limit
classification of a 429 response on the ordinary path, and `authenticate`'s
deviating behavior on the very same 429 transport. -/
theorem operations_compose_classification_witness :
    create_request stKeyed tRateLimited cfg0 =
      handle_response parseRequestCreationResult
        (tRateLimited (createRequestRequest stKeyed cfg0)) ∧
    file_dispute stKeyed tRateLimited dispute0 =
      handle_response_raw (tRateLimited (fileDisputeRequest stKeyed dispute0)) ∧
    handle_response parseRequestCreationResult
      (tRateLimited (createRequestRequest stKeyed cfg0)) =
      .err (.rateLimitError "Rate limit exceeded" 30) ∧
    (authenticate stKeyed tRateLimited none).2 =
      .err (.authError (.str "slow down")) :=
  ⟨operations_compose_classification.1 stKeyed tRateLimited cfg0,
   operations_compose_classification.2.1 stKeyed tRateLimited dispute0,
   ((operations_compose_classification.2.2.1 RequestCreationResult
      parseRequestCreationResult (tRateLimited (createRequestRequest stKeyed cfg0))).2.2.1
      "30" 30 rfl rfl rfl).1,
   operations_compose_classification.2.2.2 stKeyed tRateLimited none
     [("success", .bool false), ("errorMessage", .str "slow down")] rfl rfl rfl⟩

/-! ## C8 -/

/-- Deserializing a serialized string list gives it back. -/
theorem strListOf_map (ls : List String) : strListOf (ls.map WireVal.str) = some ls := by
  induction ls with
  | nil => rfl
  | cons a as ih => simp [strListOf, ih]

/-- The enum string round-trips. -/
theorem outputMode_round (m : OutputMode) : OutputMode.ofStr m.toStr = some m := by
  cases m <;> rfl

/-- A dumped `TimeWindow` revalidates to itself. -/
theorem tw_round (w : TimeWindow) :
    TimeWindow.fromWire (TimeWindow.toWire w) = some w := by
  simp [TimeWindow.toWire, TimeWindow.fromWire, fieldGet, wDictGet]

/-- A dumped `GeoCriteria` with a valid precision revalidates to itself. -/
theorem geo_round (g : GeoCriteria) (h : precisionOk g.precision = true) :
    GeoCriteria.fromWire (GeoCriteria.toWire g) = some g := by
  obtain ⟨p, rs⟩ := g
  cases rs <;>
    simp_all [GeoCriteria.toWire, GeoCriteria.fromWire, fieldGet, wDictGet, optField,
      optStrsOf, strsToWire, strListOf_map]

/-- An absent optional nested-model field validates to `None`. -/
theorem optModelOf_none {α : Type} (p : WireVal → Option α) :
    optModelOf p none = some none := rfl

/-- A dumped nested `TimeWindow` field revalidates to itself. -/
theorem optModelOf_tw (w : TimeWindow) :
    optModelOf TimeWindow.fromWire (some w.toWire) = some (some w) := by
  have h2 := tw_round w
  simp only [TimeWindow.toWire] at h2 ⊢
  simp [optModelOf, h2]

/-- A dumped nested `GeoCriteria` field with a valid precision revalidates to
itself. -/
theorem optModelOf_geo (g : GeoCriteria) (h : precisionOk g.precision = true) :
    optModelOf GeoCriteria.fromWire (some g.toWire) = some (some g) := by
  have h2 := geo_round g h
  simp only [GeoCriteria.toWire, List.singleton_append] at h2 ⊢
  simp [optModelOf, h2]

set_option maxHeartbeats 3200000 in
/-- C8: serializing a `RequestConfig` to its wire alias form (camelCase keys,
absent optionals omitted) and validating that very shape back reconstructs an
equal value — the alias mapping is lossless in both directions, for every
constructible config (one whose geo precision passed pydantic's pattern
check). -/
theorem request_config_alias_round_trip (c : RequestConfig)
    (h : c.geoOk = true) :
    RequestConfig.fromWire (RequestConfig.toWire c) = some c := by
  obtain ⟨tid, req, opt, tw, gc, comp, om, ttl⟩ := c
  simp only [RequestConfig.geoOk] at h
  cases tid <;> cases opt <;> cases tw <;> cases gc <;> cases ttl <;>
    simp_all [RequestConfig.toWire, RequestConfig.fromWire, fieldGet, wDictGet,
      optField, optStrOf, optStrsOf, optIntOf, strsToWire, strListOf_map,
      optModelOf_none, optModelOf_tw, optModelOf_geo, outputMode_round]

/-- C8 witness: the fully populated concrete configuration round-trips. -/
theorem request_config_alias_round_trip_witness :
    RequestConfig.geoOk cfgFull = true ∧
    RequestConfig.fromWire (RequestConfig.toWire cfgFull) = some cfgFull :=
  ⟨rfl, request_config_alias_round_trip cfgFull rfl⟩

end Yachaq
